import Mathlib

/-!
# FreeOrion UI/CUIWnd.cpp: window frame and edit dialog

A shallow embedding of the interaction logic of `CUIWnd` (hit testing, pointer
down / drag / up, close, minimize / restore) and of `CUIEditWnd` (key presses
and the OK handler), followed by the properties established about it.

Pixel coordinates are C++ `int`s; signed overflow is undefined behaviour in the
source language, so coordinates are embedded as unbounded integers.
-/

namespace FreeOrion

/-! ## Host toolkit data: points, buttons, the application viewport -/

/-- Pixel position or extent of the host toolkit, `GG::Pt`: two integer coordinates. -/
structure Pt where
  x : Int
  y : Int
deriving DecidableEq, Repr

instance : Add Pt := ⟨fun a b => ⟨a.x + b.x, a.y + b.y⟩⟩

instance : Sub Pt := ⟨fun a b => ⟨a.x - b.x, a.y - b.y⟩⟩

/-- Modelled from the spec: `GG::Pt` comparison `a <= b` of the host toolkit (declared
outside CUIWnd.cpp), the bounding-rectangle test of hit testing: it holds when both coordinates are
less than or equal. -/
def Pt.le (a b : Pt) : Bool := decide (a.x ≤ b.x) && decide (a.y ≤ b.y)

/-- Modelled from the spec: `GG::Pt` comparison `a < b` of the host toolkit (declared
outside CUIWnd.cpp), the bounding-rectangle test of hit testing: it holds when both coordinates are
strictly less. -/
def Pt.lt (a b : Pt) : Bool := decide (a.x < b.x) && decide (a.y < b.y)

/-- The named chrome constants of `CUIWnd`, declared in CUIWnd.h (outside CUIWnd.cpp);
every definition below takes them as a parameter. -/
structure Metrics where
  BUTTON_TOP_OFFSET : Int
  BUTTON_RIGHT_OFFSET : Int
  MINIMIZED_WND_LENGTH : Int
  BORDER_LEFT : Int
  BORDER_TOP : Int
  BORDER_RIGHT : Int
  BORDER_BOTTOM : Int
  OUTER_EDGE_ANGLE_OFFSET : Int
  INNER_BORDER_ANGLE_OFFSET : Int
deriving DecidableEq, Repr

/-- Concrete values for the chrome constants, used only where a property is evaluated
on a concrete frame. -/
def sampleMetrics : Metrics :=
  { BUTTON_TOP_OFFSET := 3
    BUTTON_RIGHT_OFFSET := 15
    MINIMIZED_WND_LENGTH := 150
    BORDER_LEFT := 5
    BORDER_TOP := 18
    BORDER_RIGHT := 5
    BORDER_BOTTOM := 5
    OUTER_EDGE_ANGLE_OFFSET := 8
    INNER_BORDER_ANGLE_OFFSET := 11 }

/-- The window flags the constructor inspects: `GG::RESIZABLE`, `CLOSABLE`, `MINIMIZABLE`. -/
structure Flags where
  RESIZABLE : Bool
  CLOSABLE : Bool
  MINIMIZABLE : Bool
deriving DecidableEq, Repr

/-- Child button owned by a frame (`CUI_CloseButton`, `CUI_MinRestoreButton`): its
position relative to the frame and whether it is shown. -/
structure Button where
  ul : Pt
  visible : Bool
deriving DecidableEq, Repr

/-- Modelled from the spec: `GG::Wnd::MoveTo` of the host toolkit (declared outside CUIWnd.cpp),
applied to a child button: the button is placed at the given position. -/
def Button.MoveTo (b : Button) (pt : Pt) : Button := { b with ul := pt }

/-- Modelled from the spec: `GG::Wnd::Show` of the host toolkit (declared outside CUIWnd.cpp),
applied to a child button. -/
def Button.Show (b : Button) : Button := { b with visible := true }

/-- The application viewport, `GG::GUI::GetGUI()->AppWidth()` and `AppHeight()`. -/
structure GUI where
  AppWidth : Int
  AppHeight : Int
deriving DecidableEq, Repr

/-- Call made on a container of the host toolkit when a frame is closed. -/
inductive HostCall where
  | DetachChild (parent : Nat)
  | Remove
deriving DecidableEq, Repr

/-! ## The frame -/

/-- State of a `CUIWnd`: the part of its `GG::Wnd` base the file reads or writes,
followed by the members `CUIWnd` adds. -/
structure CUIWnd where
  m_upperleft : Pt
  m_lowerright : Pt
  m_min_size : Pt
  m_parent : Option Nat
  m_visible : Bool
  m_done : Bool
  m_text : String
  m_resizable : Bool
  m_closable : Bool
  m_minimizable : Bool
  m_minimized : Bool
  m_original_size : Pt
  m_drag_offset : Pt
  m_close_button : Option Button
  m_minimize_button : Option Button
deriving DecidableEq, Repr

/-- Upper-left corner of the frame, `GG::Wnd::UpperLeft`. -/
def CUIWnd.UpperLeft (w : CUIWnd) : Pt := w.m_upperleft

/-- Lower-right corner of the frame, `GG::Wnd::LowerRight`. -/
def CUIWnd.LowerRight (w : CUIWnd) : Pt := w.m_lowerright

/-- Extent of the frame, `GG::Wnd::Size`: lower-right minus upper-left. -/
def CUIWnd.Size (w : CUIWnd) : Pt := w.m_lowerright - w.m_upperleft

/-- Width of the frame, `GG::Wnd::Width`. -/
def CUIWnd.Width (w : CUIWnd) : Int := w.m_lowerright.x - w.m_upperleft.x

/-- Height of the frame, `GG::Wnd::Height`. -/
def CUIWnd.Height (w : CUIWnd) : Int := w.m_lowerright.y - w.m_upperleft.y

/-- The value `GG::Pt(-1, -1)` that marks "no resize drag in progress". -/
def sentinel : Pt := ⟨-1, -1⟩

/-- Source `CUIWnd::MinimizedLength`: the constant `MINIMIZED_WND_LENGTH`. -/
def CUIWnd.MinimizedLength (M : Metrics) (_w : CUIWnd) : Int := M.MINIMIZED_WND_LENGTH

/-- Source `CUIWnd::ClientUpperLeft`. -/
def CUIWnd.ClientUpperLeft (M : Metrics) (w : CUIWnd) : Pt :=
  if w.m_minimized then w.UpperLeft else w.UpperLeft + ⟨M.BORDER_LEFT, M.BORDER_TOP⟩

/-- Source `CUIWnd::ClientLowerRight`. -/
def CUIWnd.ClientLowerRight (M : Metrics) (w : CUIWnd) : Pt :=
  if w.m_minimized then w.LowerRight else w.LowerRight - ⟨M.BORDER_RIGHT, M.BORDER_BOTTOM⟩

/-- Modelled from the spec: `GG::Wnd::SetMinSize` of the host toolkit (declared outside CUIWnd.cpp):
the minimum size in force becomes the given one. The spec places the clamping in
move/resize, so the current size is left as it is. -/
def CUIWnd.SetMinSize (w : CUIWnd) (sz : Pt) : CUIWnd := { w with m_min_size := sz }

/-- Modelled from the spec: `GG::Wnd::SizeMove` of the host toolkit (declared outside CUIWnd.cpp),
"move/resize with minimum-size clamping": the upper-left corner is placed as asked and
the extent is raised to the minimum size in each dimension. -/
def CUIWnd.Wnd_SizeMove (w : CUIWnd) (ul lr : Pt) : CUIWnd :=
  { w with
    m_upperleft := ul
    m_lowerright := ⟨max lr.x (ul.x + w.m_min_size.x), max lr.y (ul.y + w.m_min_size.y)⟩ }

/-- Source `CUIWnd::SizeMove`: the host resize/move, then both buttons are put back at
the top-right corner. -/
def CUIWnd.SizeMove (M : Metrics) (w : CUIWnd) (ul lr : Pt) : CUIWnd :=
  let w1 := w.Wnd_SizeMove ul lr
  let button_ul : Pt :=
    (⟨w1.Width - M.BUTTON_RIGHT_OFFSET, M.BUTTON_TOP_OFFSET⟩ + w1.UpperLeft) - w1.ClientUpperLeft M
  let w2 := { w1 with m_close_button := w1.m_close_button.map (fun (b : Button) => b.MoveTo ⟨button_ul.x, button_ul.y⟩) }
  { w2 with
    m_minimize_button := w2.m_minimize_button.map (fun (b : Button) =>
      b.MoveTo ⟨button_ul.x - (if w2.m_close_button.isSome then M.BUTTON_RIGHT_OFFSET else 0), button_ul.y⟩) }

/-- Modelled from the spec: `GG::Wnd::Resize` of the host toolkit (declared outside CUIWnd.cpp): a
size change that keeps the upper-left corner, carried out by the (virtual) `SizeMove`. -/
def CUIWnd.Resize (M : Metrics) (w : CUIWnd) (sz : Pt) : CUIWnd :=
  w.SizeMove M w.UpperLeft (w.UpperLeft + sz)

/-- Modelled from the spec: `GG::Wnd::LDrag` of the host toolkit (declared outside CUIWnd.cpp), the
plain move-drag: the frame is moved by the move vector, carried out by `SizeMove`. -/
def CUIWnd.Wnd_LDrag (M : Metrics) (w : CUIWnd) (_pt move : Pt) (_keys : Nat) : CUIWnd :=
  w.SizeMove M (w.UpperLeft + move) (w.LowerRight + move)

/-- Modelled from the spec: `GG::Wnd::Hide` of the host toolkit (declared outside CUIWnd.cpp): the
frame and its children are hidden. -/
def CUIWnd.Hide (w : CUIWnd) : CUIWnd :=
  { w with
    m_visible := false
    m_close_button := w.m_close_button.map (fun (b : Button) => { b with visible := false })
    m_minimize_button := w.m_minimize_button.map (fun (b : Button) => { b with visible := false }) }

/-- Modelled from the spec: `GG::Wnd::Show(children)` of the host toolkit (declared
outside CUIWnd.cpp): the frame is shown, and its children too when `children` is set. -/
def CUIWnd.Show (w : CUIWnd) (children : Bool) : CUIWnd :=
  if children then
    { w with
      m_visible := true
      m_close_button := w.m_close_button.map Button.Show
      m_minimize_button := w.m_minimize_button.map Button.Show }
  else { w with m_visible := true }

/-- Source `CUIWnd::InitButtons`: the close and minimize buttons are created as the
flags ask, at the top-right corner. -/
def CUIWnd.InitButtons (M : Metrics) (w : CUIWnd) : CUIWnd :=
  let button_ul : Pt :=
    (⟨w.Width - M.BUTTON_RIGHT_OFFSET, M.BUTTON_TOP_OFFSET⟩ + w.UpperLeft) - w.ClientUpperLeft M
  let w1 :=
    if w.m_closable then
      { w with m_close_button := some ⟨⟨button_ul.x, button_ul.y⟩, true⟩ }
    else w
  if w1.m_minimizable then
    { w1 with
      m_minimize_button :=
        some ⟨⟨button_ul.x - (if w1.m_close_button.isSome then M.BUTTON_RIGHT_OFFSET else 0),
               button_ul.y⟩, true⟩ }
  else w1

/-- Source constructor `CUIWnd::CUIWnd(t, x, y, w, h, flags)`. The member
`m_original_size` is not in the initializer list and is default-constructed. -/
def CUIWnd.ctor (M : Metrics) (t : String) (x y w h : Int) (flags : Flags) : CUIWnd :=
  let w0 : CUIWnd :=
    { m_upperleft := ⟨x, y⟩
      m_lowerright := ⟨x + w, y + h⟩
      m_min_size := ⟨0, 0⟩
      m_parent := none
      m_visible := true
      m_done := false
      m_text := ""
      m_resizable := flags.RESIZABLE
      m_closable := flags.CLOSABLE
      m_minimizable := flags.MINIMIZABLE
      m_minimized := false
      m_original_size := ⟨0, 0⟩
      m_drag_offset := ⟨-1, -1⟩
      m_close_button := none
      m_minimize_button := none }
  let w1 := { w0 with m_text := t }
  let w2 := w1.SetMinSize
    ⟨CUIWnd.MinimizedLength M w1,
     M.BORDER_TOP + M.INNER_BORDER_ANGLE_OFFSET + M.BORDER_BOTTOM + 50⟩
  w2.InitButtons M

/-- Source `CUIWnd::LButtonDown`. -/
def CUIWnd.LButtonDown (M : Metrics) (w : CUIWnd) (pt : Pt) (_keys : Nat) : CUIWnd :=
  if !w.m_minimized && w.m_resizable then
    let cl_lr : Pt := w.LowerRight - ⟨M.BORDER_RIGHT, M.BORDER_BOTTOM⟩
    let dist_from_lr : Pt := cl_lr - pt
    if dist_from_lr.x + dist_from_lr.y ≤ M.INNER_BORDER_ANGLE_OFFSET then
      { w with m_drag_offset := pt - w.LowerRight }
    else w
  else w

/-- Source `CUIWnd::LDrag`. -/
def CUIWnd.LDrag (M : Metrics) (g : GUI) (w : CUIWnd) (pt move : Pt) (keys : Nat) : CUIWnd :=
  if w.m_drag_offset ≠ (⟨-1, -1⟩ : Pt) then
    w.Resize M ((pt - w.m_drag_offset) - w.UpperLeft)
  else
    let ul := w.UpperLeft
    let lr := w.LowerRight
    if decide (0 ≤ ul.x + move.x) && decide (lr.x + move.x < g.AppWidth) &&
       decide (0 ≤ ul.y + move.y) && decide (lr.y + move.y < g.AppHeight) then
      w.Wnd_LDrag M pt move keys
    else w

/-- Source `CUIWnd::LButtonUp`. -/
def CUIWnd.LButtonUp (w : CUIWnd) (_pt : Pt) (_keys : Nat) : CUIWnd :=
  { w with m_drag_offset := ⟨-1, -1⟩ }

/-- Source `CUIWnd::InWindow`. -/
def CUIWnd.InWindow (M : Metrics) (w : CUIWnd) (pt : Pt) : Bool :=
  let lr := w.LowerRight
  let dist_from_lr : Pt := lr - pt
  let inside_lower_right_corner : Bool :=
    decide (M.OUTER_EDGE_ANGLE_OFFSET < dist_from_lr.x + dist_from_lr.y)
  Pt.le w.UpperLeft pt && Pt.lt pt w.LowerRight && inside_lower_right_corner

/-- Source `CUIWnd::CloseClicked`: the frame and the calls it makes on its containers.
The host's `DetachChild` leaves the frame without a parent. -/
def CUIWnd.CloseClicked (w : CUIWnd) : CUIWnd × List HostCall :=
  let w1 := { w with m_done := true }
  match w1.m_parent with
  | some p => ({ w1 with m_parent := none }, [HostCall.DetachChild p])
  | none => (w1, [HostCall.Remove])

/-- Source `CUIWnd::MinimizeClicked`. -/
def CUIWnd.MinimizeClicked (M : Metrics) (w : CUIWnd) : CUIWnd :=
  if !w.m_minimized then
    let w1 := { w with m_minimized := true }
    let w2 := { w1 with m_original_size := w1.Size }
    let w3 := w2.SetMinSize ⟨CUIWnd.MinimizedLength M w2, M.BORDER_TOP⟩
    let w4 := w3.Resize M ⟨M.MINIMIZED_WND_LENGTH, M.BORDER_TOP⟩
    let button_ul : Pt := ⟨w4.Width - M.BUTTON_RIGHT_OFFSET, M.BUTTON_TOP_OFFSET⟩
    let w5 := { w4 with m_close_button := w4.m_close_button.map (fun (b : Button) => b.MoveTo ⟨button_ul.x, button_ul.y⟩) }
    let w6 := { w5 with
      m_minimize_button := w5.m_minimize_button.map (fun (b : Button) =>
        b.MoveTo ⟨button_ul.x - (if w5.m_close_button.isSome then M.BUTTON_RIGHT_OFFSET else 0), button_ul.y⟩) }
    let w7 := w6.Hide
    let w8 := w7.Show false
    let w9 := { w8 with m_close_button := w8.m_close_button.map Button.Show }
    { w9 with m_minimize_button := w9.m_minimize_button.map Button.Show }
  else
    let w1 := { w with m_minimized := false }
    let w2 := w1.SetMinSize
      ⟨CUIWnd.MinimizedLength M w1,
       M.BORDER_TOP + M.INNER_BORDER_ANGLE_OFFSET + M.BORDER_BOTTOM + 10⟩
    let w3 := w2.Resize M w2.m_original_size
    let button_ul : Pt :=
      (⟨w3.Width - M.BUTTON_RIGHT_OFFSET, M.BUTTON_TOP_OFFSET⟩ + w3.UpperLeft) - w3.ClientUpperLeft M
    let w4 := { w3 with m_close_button := w3.m_close_button.map (fun (b : Button) => b.MoveTo ⟨button_ul.x, button_ul.y⟩) }
    let w5 := { w4 with
      m_minimize_button := w4.m_minimize_button.map (fun (b : Button) =>
        b.MoveTo ⟨button_ul.x - (if w4.m_close_button.isSome then M.BUTTON_RIGHT_OFFSET else 0), button_ul.y⟩) }
    w5.Show true

/-! ## Event sequences on a frame -/

/-- Pointer and button events a frame receives from the host event loop. -/
inductive Event where
  | LButtonDown (pt : Pt)
  | LDrag (pt move : Pt)
  | LButtonUp (pt : Pt)
  | MinimizeClicked
deriving DecidableEq, Repr

/-- One event handled by the frame. -/
def CUIWnd.step (M : Metrics) (g : GUI) (w : CUIWnd) : Event → CUIWnd
  | Event.LButtonDown pt => w.LButtonDown M pt 0
  | Event.LDrag pt move => w.LDrag M g pt move 0
  | Event.LButtonUp pt => w.LButtonUp pt 0
  | Event.MinimizeClicked => w.MinimizeClicked M

/-- A sequence of events handled in order. -/
def CUIWnd.run (M : Metrics) (g : GUI) (w : CUIWnd) (es : List Event) : CUIWnd :=
  es.foldl (CUIWnd.step M g) w

/-! ## The edit dialog -/

/-- Keys of the host toolkit, `GG::Key`, as far as `CUIEditWnd::KeyPress` tells them
apart. -/
inductive Key where
  | GGK_RETURN
  | GGK_ESCAPE
  | GGK_OTHER (code : Nat)
deriving DecidableEq, Repr

/-- State of a `CUIEditWnd`: its frame, the text of the edit control `m_edit`, whether
the OK button `m_ok_bn` is disabled, and the result slot. -/
structure CUIEditWnd where
  wnd : CUIWnd
  m_edit_text : String
  m_ok_bn_disabled : Bool
  m_result : String
deriving DecidableEq, Repr

/-- Source `CUIEditWnd::Result`. -/
def CUIEditWnd.Result (e : CUIEditWnd) : String := e.m_result

/-- The inherited `CUIWnd::CloseClicked` run on the dialog. -/
def CUIEditWnd.CloseClicked (e : CUIEditWnd) : CUIEditWnd × List HostCall :=
  let r := e.wnd.CloseClicked
  ({ e with wnd := r.1 }, r.2)

/-- Source `CUIEditWnd::OkClicked`. -/
def CUIEditWnd.OkClicked (e : CUIEditWnd) : CUIEditWnd × List HostCall :=
  let e1 := { e with m_result := e.m_edit_text }
  e1.CloseClicked

/-- Source `CUIEditWnd::KeyPress`. -/
def CUIEditWnd.KeyPress (e : CUIEditWnd) (key : Key) (_key_mods : Nat) : CUIEditWnd × List HostCall :=
  match key with
  | Key.GGK_RETURN => if !e.m_ok_bn_disabled then e.OkClicked else (e, [])
  | Key.GGK_ESCAPE => e.CloseClicked
  | _ => (e, [])

/-! ## Predicates on frames and event sequences -/

/-- A minimized frame is the fixed strip: `MINIMIZED_WND_LENGTH` wide and `BORDER_TOP`
high, with that size as its minimum size and no resize anchor recorded. -/
def CUIWnd.MinimizedStrip (M : Metrics) (w : CUIWnd) : Prop :=
  w.m_minimized = true →
    w.Size = ⟨M.MINIMIZED_WND_LENGTH, M.BORDER_TOP⟩ ∧
    w.m_min_size = ⟨M.MINIMIZED_WND_LENGTH, M.BORDER_TOP⟩ ∧
    w.m_drag_offset = sentinel

/-- Every click of the sequence that minimizes the frame finds the drag offset at the
sentinel, that is, no resize drag is in progress when the frame is minimized. -/
def CUIWnd.MinimizesWithoutAnchor (M : Metrics) (g : GUI) : CUIWnd → List Event → Prop
  | _, [] => True
  | w, e :: es =>
    (e = Event.MinimizeClicked → w.m_minimized = false → w.m_drag_offset = sentinel) ∧
    CUIWnd.MinimizesWithoutAnchor M g (w.step M g e) es

/-! ## Sample frames used for concrete evaluation -/

/-- A resizable, closable, minimizable frame built by the constructor at (10, 10) with
size 300 x 200. -/
def sampleFrame : CUIWnd :=
  CUIWnd.ctor sampleMetrics "frame" 10 10 300 200 ⟨true, true, true⟩

/-- A frame built by the constructor with height 1, as `CUIEditWnd` builds its base. -/
def thinFrame : CUIWnd :=
  CUIWnd.ctor sampleMetrics "prompt" 0 0 300 1 ⟨false, true, true⟩

/-- The viewport used for concrete evaluation. -/
def sampleGUI : GUI := ⟨1024, 768⟩

/-- An open edit dialog on the thin sample frame: field text "new name", prior result
"old", OK enabled. -/
def sampleDialog : CUIEditWnd := ⟨thinFrame, "new name", false, "old"⟩

/-! ## Basic facts about the host model -/

theorem Pt.ext_iff2 (a b : Pt) : a = b ↔ a.x = b.x ∧ a.y = b.y := by
  cases a; cases b; simp

theorem Pt.add_x (a b : Pt) : (a + b).x = a.x + b.x := rfl

theorem Pt.add_y (a b : Pt) : (a + b).y = a.y + b.y := rfl

theorem Pt.sub_x (a b : Pt) : (a - b).x = a.x - b.x := rfl

theorem Pt.sub_y (a b : Pt) : (a - b).y = a.y - b.y := rfl

/-! ## Hit testing -/

/-- C1: `InWindow(p)` is true exactly when p lies in the bounding rectangle and the sum of
its horizontal and vertical distances to the lower-right corner is strictly greater than
`OUTER_EDGE_ANGLE_OFFSET`; so it is false for every point whose distance sum is at most
the offset, also inside the bounding rectangle. -/
theorem C1_InWindow_iff (M : Metrics) (w : CUIWnd) (p : Pt) :
    (w.InWindow M p = true ↔
      (w.UpperLeft.x ≤ p.x ∧ w.UpperLeft.y ≤ p.y ∧ p.x < w.LowerRight.x ∧ p.y < w.LowerRight.y ∧
        M.OUTER_EDGE_ANGLE_OFFSET < (w.LowerRight.x - p.x) + (w.LowerRight.y - p.y))) ∧
    ((w.LowerRight.x - p.x) + (w.LowerRight.y - p.y) ≤ M.OUTER_EDGE_ANGLE_OFFSET →
      w.InWindow M p = false) := by
  constructor
  · simp only [CUIWnd.InWindow, Pt.le, Pt.lt, Pt.sub_x, Pt.sub_y, Bool.and_eq_true,
      decide_eq_true_eq]
    tauto
  · intro h
    simp only [CUIWnd.InWindow, Pt.sub_x, Pt.sub_y]
    have : decide (M.OUTER_EDGE_ANGLE_OFFSET < w.LowerRight.x - p.x + (w.LowerRight.y - p.y)) = false := by
      simp only [decide_eq_false_iff_not, not_lt]; exact h
    rw [this]; simp

/-- Witness for C1: the point (308, 208) lies inside the bounding rectangle of the
sample frame, two pixels from each edge of its lower-right corner, and is not in the
window. -/
theorem C1_InWindow_iff_witness :
    sampleFrame.UpperLeft.x ≤ 308 ∧ (308 : Int) < sampleFrame.LowerRight.x ∧
    sampleFrame.UpperLeft.y ≤ 208 ∧ (208 : Int) < sampleFrame.LowerRight.y ∧
    sampleFrame.InWindow sampleMetrics ⟨308, 208⟩ = false :=
  ⟨by decide, by decide, by decide, by decide,
   (C1_InWindow_iff sampleMetrics sampleFrame ⟨308, 208⟩).2 (by decide)⟩

/-! ## Move-drag outside the viewport -/

/-- C4: with no resize anchor active (drag offset equal to the sentinel), a drag whose
moved bounding rectangle would have an edge outside [0, AppWidth) x [0, AppHeight)
leaves the frame unchanged: position, size and every other member. -/
theorem C4_LDrag_outside_viewport (M : Metrics) (g : GUI) (w : CUIWnd) (pt move : Pt)
    (keys : Nat) (hoff : w.m_drag_offset = sentinel)
    (hout : w.UpperLeft.x + move.x < 0 ∨ g.AppWidth ≤ w.LowerRight.x + move.x ∨
            w.UpperLeft.y + move.y < 0 ∨ g.AppHeight ≤ w.LowerRight.y + move.y) :
    w.LDrag M g pt move keys = w ∧
    (w.LDrag M g pt move keys).UpperLeft = w.UpperLeft ∧
    (w.LDrag M g pt move keys).Size = w.Size := by
  have key : w.LDrag M g pt move keys = w := by
    unfold CUIWnd.LDrag
    rw [if_neg (by rw [hoff]; simp [sentinel])]
    simp only []
    rw [if_neg]
    simp only [Bool.and_eq_true, decide_eq_true_eq, not_and, not_lt]
    intro h1
    obtain ⟨⟨h1, h2⟩, h3⟩ := h1
    rcases hout with h | h | h | h
    · omega
    · omega
    · omega
    · exact h
  rw [key]; exact ⟨rfl, rfl, rfl⟩

/-- Witness for C4: the sample frame, lower-right corner (310, 210), dragged by
(800, 0) in a 1024 x 768 viewport would end with its right edge at 1110. -/
theorem C4_LDrag_outside_viewport_witness :
    sampleFrame.m_drag_offset = sentinel ∧
    sampleGUI.AppWidth ≤ sampleFrame.LowerRight.x + 800 ∧
    sampleFrame.LDrag sampleMetrics sampleGUI ⟨100, 15⟩ ⟨800, 0⟩ 0 = sampleFrame :=
  ⟨by decide, by decide,
   (C4_LDrag_outside_viewport sampleMetrics sampleGUI sampleFrame ⟨100, 15⟩ ⟨800, 0⟩ 0
      (by decide) (Or.inr (Or.inl (by decide)))).1⟩

/-! ## Close -/

/-- C5: `CloseClicked` sets the done flag and makes exactly one detach call: `DetachChild`
on the parent when the frame has one, otherwise `Remove` on the GUI root; never both and
never neither. -/
theorem C5_CloseClicked_one_detach (w : CUIWnd) :
    w.CloseClicked.1.m_done = true ∧
    w.CloseClicked.2.length = 1 ∧
    w.CloseClicked.2 =
      (match w.m_parent with
       | some p => [HostCall.DetachChild p]
       | none => [HostCall.Remove]) ∧
    (HostCall.Remove ∈ w.CloseClicked.2 ↔ w.m_parent = none) ∧
    ((∃ p, HostCall.DetachChild p ∈ w.CloseClicked.2) ↔ w.m_parent ≠ none) := by
  unfold CUIWnd.CloseClicked
  cases hp : w.m_parent with
  | none => simp
  | some p => simp

/-! ## Edit dialog keys -/

/-- C6: in the edit dialog with field text t and prior result r, Return with OK enabled
sets the result to t and closes the dialog; Escape closes it with the result still r,
doing exactly what `CloseClicked` does; Return with OK disabled and any other key leave
the dialog as it was and make no host call. -/
theorem C6_KeyPress (e : CUIEditWnd) (key_mods : Nat) :
    (e.m_ok_bn_disabled = false →
      e.KeyPress Key.GGK_RETURN key_mods = e.OkClicked ∧
      (e.KeyPress Key.GGK_RETURN key_mods).1.Result = e.m_edit_text ∧
      (e.KeyPress Key.GGK_RETURN key_mods).1.wnd.m_done = true ∧
      (e.KeyPress Key.GGK_RETURN key_mods).2 = e.wnd.CloseClicked.2) ∧
    (e.KeyPress Key.GGK_ESCAPE key_mods = e.CloseClicked ∧
      (e.KeyPress Key.GGK_ESCAPE key_mods).1.Result = e.m_result ∧
      (e.KeyPress Key.GGK_ESCAPE key_mods).1.wnd.m_done = true ∧
      (e.KeyPress Key.GGK_ESCAPE key_mods).2 = e.wnd.CloseClicked.2) ∧
    (e.m_ok_bn_disabled = true → e.KeyPress Key.GGK_RETURN key_mods = (e, [])) ∧
    (∀ code, e.KeyPress (Key.GGK_OTHER code) key_mods = (e, [])) := by
  refine ⟨?_, ?_, ?_, ?_⟩
  · intro h
    have hk : e.KeyPress Key.GGK_RETURN key_mods = e.OkClicked := by
      simp [CUIEditWnd.KeyPress, h]
    rw [hk]
    refine ⟨rfl, ?_, ?_, ?_⟩
    · simp [CUIEditWnd.OkClicked, CUIEditWnd.CloseClicked, CUIEditWnd.Result]
    · simp only [CUIEditWnd.OkClicked, CUIEditWnd.CloseClicked, CUIWnd.CloseClicked]
      cases e.wnd.m_parent <;> rfl
    · simp only [CUIEditWnd.OkClicked, CUIEditWnd.CloseClicked]
  · refine ⟨rfl, ?_, ?_, ?_⟩
    · simp [CUIEditWnd.KeyPress, CUIEditWnd.CloseClicked, CUIEditWnd.Result]
    · simp only [CUIEditWnd.KeyPress, CUIEditWnd.CloseClicked, CUIWnd.CloseClicked]
      cases e.wnd.m_parent <;> rfl
    · simp only [CUIEditWnd.KeyPress, CUIEditWnd.CloseClicked]
  · intro h
    simp [CUIEditWnd.KeyPress, h]
  · intro code
    rfl

/-- Witness for C6: Return on the sample dialog, whose OK button is enabled, stores the
field text "new name". -/
theorem C6_KeyPress_witness :
    sampleDialog.m_ok_bn_disabled = false ∧
    (sampleDialog.KeyPress Key.GGK_RETURN 0).1.Result = "new name" ∧
    (sampleDialog.KeyPress Key.GGK_ESCAPE 0).1.Result = "old" :=
  ⟨rfl, ((C6_KeyPress sampleDialog 0).1 rfl).2.1, (C6_KeyPress sampleDialog 0).2.1.2.1⟩

/-! ## Pointer-down: the resize grab -/

/-- Whatever the constants are, as long as the right and bottom borders together are at
least one pixel wide, a resizable, non-minimized frame records an anchor at a point whose
distance sum to the lower-right corner exceeds `INNER_BORDER_ANGLE_OFFSET`. -/
theorem LButtonDown_grabs_beyond_inner_offset (M : Metrics) (w : CUIWnd) (keys : Nat)
    (hm : w.m_minimized = false) (hr : w.m_resizable = true)
    (hb : 0 < M.BORDER_RIGHT + M.BORDER_BOTTOM) :
    M.INNER_BORDER_ANGLE_OFFSET <
      (w.LowerRight.x - (w.LowerRight.x - (M.INNER_BORDER_ANGLE_OFFSET + 1))) +
        (w.LowerRight.y - w.LowerRight.y) ∧
    (w.LButtonDown M ⟨w.LowerRight.x - (M.INNER_BORDER_ANGLE_OFFSET + 1), w.LowerRight.y⟩
        keys).m_drag_offset = ⟨-(M.INNER_BORDER_ANGLE_OFFSET + 1), 0⟩ := by
  constructor
  · omega
  · unfold CUIWnd.LButtonDown
    simp only [hm, hr, Bool.not_false, Bool.and_self, if_true, Pt.sub_x, Pt.sub_y]
    rw [if_pos (by omega)]
    simp only [Pt.ext_iff2, Pt.sub_x, Pt.sub_y]
    constructor <;> omega

/-! ## Minimize and restore -/

/-- What a minimize click does to the members the other handlers read. -/
theorem MinimizeClicked_minimize (M : Metrics) (w : CUIWnd) (hm : w.m_minimized = false) :
    (w.MinimizeClicked M).m_minimized = true ∧
    (w.MinimizeClicked M).m_upperleft = w.m_upperleft ∧
    (w.MinimizeClicked M).m_lowerright =
      ⟨w.m_upperleft.x + M.MINIMIZED_WND_LENGTH, w.m_upperleft.y + M.BORDER_TOP⟩ ∧
    (w.MinimizeClicked M).m_min_size = ⟨M.MINIMIZED_WND_LENGTH, M.BORDER_TOP⟩ ∧
    (w.MinimizeClicked M).m_original_size = w.Size ∧
    (w.MinimizeClicked M).m_drag_offset = w.m_drag_offset ∧
    (w.MinimizeClicked M).m_resizable = w.m_resizable := by
  simp [CUIWnd.MinimizeClicked, hm, CUIWnd.Show, CUIWnd.Hide, CUIWnd.Resize, CUIWnd.SizeMove,
    CUIWnd.Wnd_SizeMove, CUIWnd.SetMinSize, CUIWnd.MinimizedLength, CUIWnd.UpperLeft,
    CUIWnd.Size, Pt.add_x, Pt.add_y]

/-- What a restore click does to the members the other handlers read. -/
theorem MinimizeClicked_restore (M : Metrics) (w : CUIWnd) (hm : w.m_minimized = true) :
    (w.MinimizeClicked M).m_minimized = false ∧
    (w.MinimizeClicked M).m_upperleft = w.m_upperleft ∧
    (w.MinimizeClicked M).m_lowerright =
      ⟨max (w.m_upperleft.x + w.m_original_size.x) (w.m_upperleft.x + M.MINIMIZED_WND_LENGTH),
       max (w.m_upperleft.y + w.m_original_size.y)
         (w.m_upperleft.y +
           (M.BORDER_TOP + M.INNER_BORDER_ANGLE_OFFSET + M.BORDER_BOTTOM + 10))⟩ ∧
    (w.MinimizeClicked M).m_min_size =
      ⟨M.MINIMIZED_WND_LENGTH,
       M.BORDER_TOP + M.INNER_BORDER_ANGLE_OFFSET + M.BORDER_BOTTOM + 10⟩ ∧
    (w.MinimizeClicked M).m_original_size = w.m_original_size ∧
    (w.MinimizeClicked M).m_drag_offset = w.m_drag_offset ∧
    (w.MinimizeClicked M).m_resizable = w.m_resizable := by
  simp [CUIWnd.MinimizeClicked, hm, CUIWnd.Show, CUIWnd.Resize, CUIWnd.SizeMove,
    CUIWnd.Wnd_SizeMove, CUIWnd.SetMinSize, CUIWnd.MinimizedLength, CUIWnd.UpperLeft,
    Pt.add_x, Pt.add_y]

/-- The size after a minimize click followed by a restore click, for any frame that was
not minimized: the saved size raised to the restore minimum in each dimension. -/
theorem MinimizeClicked_twice_size (M : Metrics) (w : CUIWnd) (hm : w.m_minimized = false) :
    ((w.MinimizeClicked M).MinimizeClicked M).Size =
      ⟨max w.Size.x M.MINIMIZED_WND_LENGTH,
       max w.Size.y (M.BORDER_TOP + M.INNER_BORDER_ANGLE_OFFSET + M.BORDER_BOTTOM + 10)⟩ := by
  obtain ⟨h1, h2, _, _, h5, _, _⟩ := MinimizeClicked_minimize M w hm
  obtain ⟨_, k2, k3, _, _, _, _⟩ := MinimizeClicked_restore M (w.MinimizeClicked M) h1
  simp only [CUIWnd.Size, Pt.ext_iff2, Pt.sub_x, Pt.sub_y, k2, k3, h2, h5]
  constructor <;> omega

/-- C3, as amended: for every non-minimized frame whose size s is at least the restore
minimum (`MinimizedLength()` wide, `BORDER_TOP + INNER_BORDER_ANGLE_OFFSET + BORDER_BOTTOM
+ 10` high), a minimize click followed by a restore click leaves the frame non-minimized
with size exactly s, the size recorded in `m_original_size` by the minimize click. -/
theorem C3_minimize_restore_size (M : Metrics) (w : CUIWnd) (hm : w.m_minimized = false)
    (hx : M.MINIMIZED_WND_LENGTH ≤ w.Size.x)
    (hy : M.BORDER_TOP + M.INNER_BORDER_ANGLE_OFFSET + M.BORDER_BOTTOM + 10 ≤ w.Size.y) :
    ((w.MinimizeClicked M).MinimizeClicked M).m_minimized = false ∧
    (w.MinimizeClicked M).m_original_size = w.Size ∧
    ((w.MinimizeClicked M).MinimizeClicked M).Size = (w.MinimizeClicked M).m_original_size ∧
    ((w.MinimizeClicked M).MinimizeClicked M).Size = w.Size := by
  obtain ⟨h1, _, _, _, h5, _, _⟩ := MinimizeClicked_minimize M w hm
  obtain ⟨k1, _, _, _, _, _, _⟩ := MinimizeClicked_restore M (w.MinimizeClicked M) h1
  have hs := MinimizeClicked_twice_size M w hm
  have hs2 : ((w.MinimizeClicked M).MinimizeClicked M).Size = w.Size := by
    rw [hs, Pt.ext_iff2]
    exact ⟨max_eq_left hx, max_eq_left hy⟩
  exact ⟨k1, h5, by rw [hs2, h5], hs2⟩

/-- Witness for C3: the sample frame, 300 x 200, is not minimized and is larger than the
restore minimum 150 x 44. -/
theorem C3_minimize_restore_size_witness :
    sampleFrame.m_minimized = false ∧
    ((sampleFrame.MinimizeClicked sampleMetrics).MinimizeClicked sampleMetrics).Size =
      sampleFrame.Size :=
  ⟨by decide,
   (C3_minimize_restore_size sampleMetrics sampleFrame (by decide) (by decide) (by decide)).2.2.2⟩

/-- C3 as stated fails: a frame constructed 300 wide and 1 high (the height `CUIEditWnd`
passes to its base constructor) is not minimized, and after a minimize click and a
restore click its size is 300 x 44, not 300 x 1: the restore resize is clamped to the
minimum size set just before it. -/
theorem C3_counterexample :
    thinFrame.m_minimized = false ∧
    thinFrame.Size = ⟨300, 1⟩ ∧
    (thinFrame.MinimizeClicked sampleMetrics).m_original_size = ⟨300, 1⟩ ∧
    ((thinFrame.MinimizeClicked sampleMetrics).MinimizeClicked sampleMetrics).m_minimized = false ∧
    ((thinFrame.MinimizeClicked sampleMetrics).MinimizeClicked sampleMetrics).Size = ⟨300, 44⟩ ∧
    ((thinFrame.MinimizeClicked sampleMetrics).MinimizeClicked sampleMetrics).Size ≠ thinFrame.Size := by
  decide

/-- C10, the code at every constructed frame: the constructor sets the minimum height
`BORDER_TOP + INNER_BORDER_ANGLE_OFFSET + BORDER_BOTTOM + 50`, the restore click sets
`BORDER_TOP + INNER_BORDER_ANGLE_OFFSET + BORDER_BOTTOM + 10`, so after minimize and
restore the minimum size in force is not the construction value. -/
theorem C10_restore_min_size_differs (M : Metrics) (t : String) (x y w h : Int) (flags : Flags) :
    (CUIWnd.ctor M t x y w h flags).m_min_size =
      ⟨M.MINIMIZED_WND_LENGTH,
       M.BORDER_TOP + M.INNER_BORDER_ANGLE_OFFSET + M.BORDER_BOTTOM + 50⟩ ∧
    (((CUIWnd.ctor M t x y w h flags).MinimizeClicked M).MinimizeClicked M).m_min_size =
      ⟨M.MINIMIZED_WND_LENGTH,
       M.BORDER_TOP + M.INNER_BORDER_ANGLE_OFFSET + M.BORDER_BOTTOM + 10⟩ ∧
    (((CUIWnd.ctor M t x y w h flags).MinimizeClicked M).MinimizeClicked M).m_min_size ≠
      (CUIWnd.ctor M t x y w h flags).m_min_size := by
  have hc : (CUIWnd.ctor M t x y w h flags).m_minimized = false := by
    simp only [CUIWnd.ctor, CUIWnd.InitButtons, CUIWnd.SetMinSize]
    split <;> split <;> rfl
  have hmin : (CUIWnd.ctor M t x y w h flags).m_min_size =
      ⟨M.MINIMIZED_WND_LENGTH,
       M.BORDER_TOP + M.INNER_BORDER_ANGLE_OFFSET + M.BORDER_BOTTOM + 50⟩ := by
    simp only [CUIWnd.ctor, CUIWnd.InitButtons, CUIWnd.SetMinSize, CUIWnd.MinimizedLength]
    split <;> split <;> rfl
  obtain ⟨h1, _, _, _, _, _, _⟩ := MinimizeClicked_minimize M _ hc
  obtain ⟨_, _, _, k4, _, _, _⟩ := MinimizeClicked_restore M _ h1
  refine ⟨hmin, k4, ?_⟩
  rw [k4, hmin]
  intro h
  have := congrArg Pt.y h
  simp only at this
  omega

/-! ## The minimized strip under event sequences -/

/-- The members a move-drag (no resize anchor active) leaves alone, and the size it
leaves alone when the frame is at its minimum size. -/
theorem LDrag_move_fields (M : Metrics) (g : GUI) (w : CUIWnd) (pt move : Pt) (keys : Nat)
    (hoff : w.m_drag_offset = sentinel) :
    (w.LDrag M g pt move keys).m_minimized = w.m_minimized ∧
    (w.LDrag M g pt move keys).m_min_size = w.m_min_size ∧
    (w.LDrag M g pt move keys).m_drag_offset = w.m_drag_offset ∧
    (w.LDrag M g pt move keys).m_resizable = w.m_resizable ∧
    (w.Size = w.m_min_size → (w.LDrag M g pt move keys).Size = w.Size) := by
  unfold CUIWnd.LDrag
  rw [if_neg (by rw [hoff]; simp [sentinel])]
  simp only []
  split
  · refine ⟨rfl, rfl, rfl, rfl, ?_⟩
    intro hs
    rw [Pt.ext_iff2] at hs
    simp only [CUIWnd.Size, Pt.sub_x, Pt.sub_y] at hs
    simp only [CUIWnd.Wnd_LDrag, CUIWnd.SizeMove, CUIWnd.Wnd_SizeMove, CUIWnd.Size,
      CUIWnd.UpperLeft, CUIWnd.LowerRight, Pt.ext_iff2, Pt.sub_x, Pt.sub_y, Pt.add_x, Pt.add_y]
    constructor <;> omega
  · exact ⟨rfl, rfl, rfl, rfl, fun _ => rfl⟩

/-- A pointer-down never changes the minimized flag. -/
theorem LButtonDown_minimized (M : Metrics) (w : CUIWnd) (pt : Pt) (keys : Nat) :
    (w.LButtonDown M pt keys).m_minimized = w.m_minimized := by
  unfold CUIWnd.LButtonDown
  split
  · simp only []
    split <;> rfl
  · rfl

/-- A pointer-down on a minimized frame changes nothing. -/
theorem LButtonDown_of_minimized (M : Metrics) (w : CUIWnd) (pt : Pt) (keys : Nat)
    (hm : w.m_minimized = true) : w.LButtonDown M pt keys = w := by
  simp [CUIWnd.LButtonDown, hm]

/-- One event keeps the minimized-strip property, provided that a minimizing click does
not arrive while a resize anchor is recorded. -/
theorem step_preserves_MinimizedStrip (M : Metrics) (g : GUI) (w : CUIWnd) (e : Event)
    (hinv : w.MinimizedStrip M)
    (hev : e = Event.MinimizeClicked → w.m_minimized = false → w.m_drag_offset = sentinel) :
    (w.step M g e).MinimizedStrip M := by
  cases e with
  | LButtonDown pt =>
    intro hmin
    simp only [CUIWnd.step] at hmin ⊢
    rw [LButtonDown_minimized] at hmin
    rw [LButtonDown_of_minimized M w pt 0 hmin]
    exact hinv hmin
  | LDrag pt move =>
    intro hmin
    simp only [CUIWnd.step] at hmin ⊢
    cases hm : w.m_minimized with
    | true =>
      obtain ⟨hs, hms, hoff⟩ := hinv hm
      obtain ⟨_, k2, k3, _, k5⟩ := LDrag_move_fields M g w pt move 0 hoff
      exact ⟨by rw [k5 (hs.trans hms.symm), hs], by rw [k2, hms], by rw [k3, hoff]⟩
    | false =>
      by_cases hoff : w.m_drag_offset = sentinel
      · obtain ⟨k1, _, _, _, _⟩ := LDrag_move_fields M g w pt move 0 hoff
        rw [k1, hm] at hmin
        exact absurd hmin (by simp)
      · exfalso
        unfold CUIWnd.LDrag at hmin
        rw [if_pos (by simpa [sentinel] using hoff)] at hmin
        simp [CUIWnd.Resize, CUIWnd.SizeMove, CUIWnd.Wnd_SizeMove, hm] at hmin
  | LButtonUp pt =>
    intro hmin
    simp only [CUIWnd.step, CUIWnd.LButtonUp] at hmin ⊢
    obtain ⟨hs, hms, _⟩ := hinv hmin
    exact ⟨hs, hms, rfl⟩
  | MinimizeClicked =>
    intro hmin
    simp only [CUIWnd.step] at hmin ⊢
    cases hm : w.m_minimized with
    | true =>
      obtain ⟨k1, _⟩ := MinimizeClicked_restore M w hm
      rw [k1] at hmin
      exact absurd hmin (by simp)
    | false =>
      obtain ⟨_, k2, k3, k4, _, k6, _⟩ := MinimizeClicked_minimize M w hm
      refine ⟨?_, k4, by rw [k6]; exact hev rfl hm⟩
      simp only [CUIWnd.Size, k2, k3, Pt.ext_iff2, Pt.sub_x, Pt.sub_y]
      constructor <;> omega

/-- The frame built by the constructor is not minimized and has no resize anchor. -/
theorem ctor_fields (M : Metrics) (t : String) (x y w h : Int) (flags : Flags) :
    (CUIWnd.ctor M t x y w h flags).m_minimized = false ∧
    (CUIWnd.ctor M t x y w h flags).m_drag_offset = sentinel ∧
    (CUIWnd.ctor M t x y w h flags).m_resizable = flags.RESIZABLE := by
  simp only [CUIWnd.ctor, CUIWnd.InitButtons, CUIWnd.SetMinSize, sentinel]
  split <;> split <;> exact ⟨rfl, rfl, rfl⟩

/-- Along every event sequence in which no minimizing click arrives while a resize
anchor is recorded, a frame that starts as a minimized strip or not minimized stays so:
whenever it is minimized its width is `MINIMIZED_WND_LENGTH` and its height `BORDER_TOP`. -/
theorem run_MinimizedStrip (M : Metrics) (g : GUI) (es : List Event) :
    ∀ w : CUIWnd, w.MinimizedStrip M → w.MinimizesWithoutAnchor M g es →
      (w.run M g es).MinimizedStrip M := by
  induction es with
  | nil => intro w hinv _; exact hinv
  | cons e es ih =>
    intro w hinv hg
    obtain ⟨hev, hrest⟩ := hg
    exact ih (w.step M g e) (step_preserves_MinimizedStrip M g w e hinv hev) hrest

/-- A frame constructed without the resizable flag never records a resize anchor, so
along every event sequence it is, whenever minimized, `MINIMIZED_WND_LENGTH` wide and
`BORDER_TOP` high. -/
theorem run_not_resizable_minimized_size (M : Metrics) (g : GUI) (es : List Event) :
    ∀ w : CUIWnd, w.m_resizable = false → w.m_drag_offset = sentinel → w.MinimizedStrip M →
      (w.run M g es).m_resizable = false ∧ (w.run M g es).m_drag_offset = sentinel ∧
      (w.run M g es).MinimizedStrip M := by
  induction es with
  | nil => intro w hr ho hinv; exact ⟨hr, ho, hinv⟩
  | cons e es ih =>
    intro w hr ho hinv
    have hstrip := step_preserves_MinimizedStrip M g w e hinv (fun _ _ => ho)
    have hro : (w.step M g e).m_resizable = false ∧ (w.step M g e).m_drag_offset = sentinel := by
      cases e with
      | LButtonDown pt => simp [CUIWnd.step, CUIWnd.LButtonDown, hr, ho]
      | LDrag pt move =>
        obtain ⟨_, _, k3, k4, _⟩ := LDrag_move_fields M g w pt move 0 ho
        exact ⟨by simp only [CUIWnd.step]; rw [k4, hr], by simp only [CUIWnd.step]; rw [k3, ho]⟩
      | LButtonUp pt => exact ⟨hr, rfl⟩
      | MinimizeClicked =>
        cases hm : w.m_minimized with
        | true =>
          obtain ⟨_, _, _, _, _, k6, k7⟩ := MinimizeClicked_restore M w hm
          exact ⟨by simp only [CUIWnd.step]; rw [k7, hr], by simp only [CUIWnd.step]; rw [k6, ho]⟩
        | false =>
          obtain ⟨_, _, _, _, _, k6, k7⟩ := MinimizeClicked_minimize M w hm
          exact ⟨by simp only [CUIWnd.step]; rw [k7, hr], by simp only [CUIWnd.step]; rw [k6, ho]⟩
    exact ih (w.step M g e) hro.1 hro.2 hstrip

/-- A drag on a minimized frame that still carries a resize anchor resizes it: the frame
stays minimized and its size becomes the size asked for, raised to the minimum size. -/
theorem LDrag_resizes_minimized_frame (M : Metrics) (g : GUI) (w : CUIWnd) (pt move : Pt)
    (keys : Nat) (hm : w.m_minimized = true) (hoff : w.m_drag_offset ≠ sentinel) :
    (w.LDrag M g pt move keys).m_minimized = true ∧
    (w.LDrag M g pt move keys).Size =
      ⟨max ((pt.x - w.m_drag_offset.x) - w.UpperLeft.x) w.m_min_size.x,
       max ((pt.y - w.m_drag_offset.y) - w.UpperLeft.y) w.m_min_size.y⟩ := by
  unfold CUIWnd.LDrag
  rw [if_pos (by simpa [sentinel] using hoff)]
  simp only [CUIWnd.Resize, CUIWnd.SizeMove, CUIWnd.Wnd_SizeMove, CUIWnd.UpperLeft, CUIWnd.Size,
    Pt.ext_iff2, Pt.sub_x, Pt.sub_y, Pt.add_x, Pt.add_y, hm]
  refine ⟨trivial, ?_, ?_⟩ <;> omega

/-- C2, the code at a concrete event sequence: on the sample frame (resizable,
minimizable, lower-right corner (310, 210)) a pointer-down at (300, 200) records the
anchor (-10, -10), the minimize click makes the frame a minimized strip 150 x 18 and keeps
the anchor, and the drag to (500, 400) then resizes the minimized frame to 500 x 400. -/
theorem C2_minimized_frame_resized_by_drag :
    (sampleFrame.run sampleMetrics sampleGUI
      [Event.LButtonDown ⟨300, 200⟩, Event.MinimizeClicked]).m_minimized = true ∧
    (sampleFrame.run sampleMetrics sampleGUI
      [Event.LButtonDown ⟨300, 200⟩, Event.MinimizeClicked]).Size = ⟨150, 18⟩ ∧
    (sampleFrame.run sampleMetrics sampleGUI
      [Event.LButtonDown ⟨300, 200⟩, Event.MinimizeClicked]).m_drag_offset = ⟨-10, -10⟩ ∧
    (sampleFrame.run sampleMetrics sampleGUI
      [Event.LButtonDown ⟨300, 200⟩, Event.MinimizeClicked,
       Event.LDrag ⟨500, 400⟩ ⟨0, 0⟩]).m_minimized = true ∧
    (sampleFrame.run sampleMetrics sampleGUI
      [Event.LButtonDown ⟨300, 200⟩, Event.MinimizeClicked,
       Event.LDrag ⟨500, 400⟩ ⟨0, 0⟩]).Size = ⟨500, 400⟩ ∧
    (sampleFrame.run sampleMetrics sampleGUI
      [Event.LButtonDown ⟨300, 200⟩, Event.MinimizeClicked,
       Event.LDrag ⟨500, 400⟩ ⟨0, 0⟩]).Width ≠ sampleMetrics.MINIMIZED_WND_LENGTH := by
  decide

/-! ## The resize anchor and the sentinel -/

/-- Pointer-up puts the drag offset back to the sentinel. -/
theorem LButtonUp_drag_offset (w : CUIWnd) (pt : Pt) (keys : Nat) :
    (w.LButtonUp pt keys).m_drag_offset = sentinel := rfl

/-- An anchor recorded by a pointer-down that meets the resize-grab condition is equal to
the sentinel exactly at one point, the pixel one left of and one above the lower-right
corner. -/
theorem LButtonDown_anchor_eq_sentinel_iff (M : Metrics) (w : CUIWnd) (pt : Pt) (keys : Nat)
    (hm : w.m_minimized = false) (hr : w.m_resizable = true)
    (hgrab : ((w.LowerRight.x - M.BORDER_RIGHT) - pt.x) +
        ((w.LowerRight.y - M.BORDER_BOTTOM) - pt.y) ≤ M.INNER_BORDER_ANGLE_OFFSET) :
    (w.LButtonDown M pt keys).m_drag_offset = pt - w.LowerRight ∧
    ((w.LButtonDown M pt keys).m_drag_offset = sentinel ↔
      pt = ⟨w.LowerRight.x - 1, w.LowerRight.y - 1⟩) := by
  have h : (w.LButtonDown M pt keys).m_drag_offset = pt - w.LowerRight := by
    unfold CUIWnd.LButtonDown
    simp only [hm, hr, Bool.not_false, Bool.and_self, if_true, Pt.sub_x, Pt.sub_y]
    rw [if_pos hgrab]
  refine ⟨h, ?_⟩
  rw [h]
  simp only [sentinel, Pt.ext_iff2, Pt.sub_x, Pt.sub_y]
  constructor
  · rintro ⟨h1, h2⟩
    constructor <;> omega
  · rintro ⟨h1, h2⟩
    constructor <;> omega

/-- The one point whose anchor is the sentinel meets the resize-grab condition as soon as
`INNER_BORDER_ANGLE_OFFSET + BORDER_RIGHT + BORDER_BOTTOM` is at least 2. -/
theorem corner_pixel_meets_grab_condition (M : Metrics) (w : CUIWnd)
    (h : 2 ≤ M.INNER_BORDER_ANGLE_OFFSET + M.BORDER_RIGHT + M.BORDER_BOTTOM) :
    ((w.LowerRight.x - M.BORDER_RIGHT) - (w.LowerRight.x - 1)) +
      ((w.LowerRight.y - M.BORDER_BOTTOM) - (w.LowerRight.y - 1)) ≤
        M.INNER_BORDER_ANGLE_OFFSET := by
  omega

/-- Hit testing rejects the one point whose anchor is the sentinel as soon as
`OUTER_EDGE_ANGLE_OFFSET` is at least 2. -/
theorem InWindow_rejects_corner_pixel (M : Metrics) (w : CUIWnd)
    (h : 2 ≤ M.OUTER_EDGE_ANGLE_OFFSET) :
    w.InWindow M ⟨w.LowerRight.x - 1, w.LowerRight.y - 1⟩ = false := by
  simp only [CUIWnd.InWindow, Pt.sub_x, Pt.sub_y]
  have : decide (M.OUTER_EDGE_ANGLE_OFFSET <
      w.LowerRight.x - (w.LowerRight.x - 1) + (w.LowerRight.y - (w.LowerRight.y - 1))) = false := by
    simp only [decide_eq_false_iff_not, not_lt]; omega
  rw [this]; simp

/-- A pointer-down that meets the resize-grab condition anywhere but at the pixel one
left of and one above the lower-right corner, followed by a drag to q: the upper-left
corner stays and the lower-right corner becomes LR + (q - p), whenever that size is at
least the minimum size; the move vector and the viewport play no part. -/
theorem LButtonDown_LDrag_resizes (M : Metrics) (g : GUI) (w : CUIWnd) (p q move : Pt)
    (keys : Nat) (hm : w.m_minimized = false) (hr : w.m_resizable = true)
    (hgrab : ((w.LowerRight.x - M.BORDER_RIGHT) - p.x) +
        ((w.LowerRight.y - M.BORDER_BOTTOM) - p.y) ≤ M.INNER_BORDER_ANGLE_OFFSET)
    (hne : p ≠ ⟨w.LowerRight.x - 1, w.LowerRight.y - 1⟩)
    (hx : w.m_min_size.x ≤ (w.LowerRight.x + (q.x - p.x)) - w.UpperLeft.x)
    (hy : w.m_min_size.y ≤ (w.LowerRight.y + (q.y - p.y)) - w.UpperLeft.y) :
    ((w.LButtonDown M p keys).LDrag M g q move keys).UpperLeft = w.UpperLeft ∧
    ((w.LButtonDown M p keys).LDrag M g q move keys).LowerRight = w.LowerRight + (q - p) := by
  obtain ⟨hoff, hiff⟩ := LButtonDown_anchor_eq_sentinel_iff M w p keys hm hr hgrab
  have hdown : w.LButtonDown M p keys = { w with m_drag_offset := p - w.LowerRight } := by
    unfold CUIWnd.LButtonDown
    simp only [hm, hr, Bool.not_false, Bool.and_self, if_true, Pt.sub_x, Pt.sub_y]
    rw [if_pos hgrab]
  have hns : (w.LButtonDown M p keys).m_drag_offset ≠ (⟨-1, -1⟩ : Pt) := by
    intro hc
    exact hne (hiff.mp hc)
  unfold CUIWnd.LDrag
  rw [if_pos hns, hdown]
  simp only [CUIWnd.Resize, CUIWnd.SizeMove, CUIWnd.Wnd_SizeMove, CUIWnd.UpperLeft,
    CUIWnd.LowerRight, Pt.ext_iff2, Pt.sub_x, Pt.sub_y, Pt.add_x, Pt.add_y] at hx hy ⊢
  refine ⟨trivial, ?_, ?_⟩ <;> omega

end FreeOrion
